import Mathlib

/-!
Shallow embedding of `MultiComboBox.tsx` and `FormGroup.tsx` from the
smarthr-ui component library, together with theorems about the filtering
logic, the selection-mutation callbacks, the focus/composition state
machine, and the FormGroup rendering helpers.
-/

namespace SmartHRUI

/-- An item of the combo box: `{ label: string, value: T }` from `types.ts`.
Identity is the `(label, value)` pair. -/
structure Item (α : Type) where
  label : String
  value : α
deriving DecidableEq, Repr

/-- JS substring check on character sequences: `leads hay ndl` holds when
`ndl` is an initial segment of `hay` (the core of `String.prototype.includes`
at offset 0). -/
def seqLeads : List Char → List Char → Bool
  | _, [] => true
  | [], _ :: _ => false
  | a :: as, b :: bs => a == b && seqLeads as bs

/-- JS `hay.includes(ndl)` on character sequences: `ndl` occurs contiguously
somewhere inside `hay`. -/
def seqContains : List Char → List Char → Bool
  | [], ndl => ndl.isEmpty
  | h :: t, ndl => seqLeads (h :: t) ndl || seqContains t ndl

/-- JS `a.includes(b)` on strings. -/
def strIncludes (hay ndl : String) : Bool :=
  seqContains hay.data ndl.data

/-- `selectedItems.map(({ label }) => label)` (MultiComboBox.tsx line 145). -/
def selectedLabels {α : Type} (selectedItems : List (Item α)) : List String :=
  selectedItems.map Item.label

/-- `filteredItems` (MultiComboBox.tsx lines 146-150), parameterised by the
normalisation function `conv` standing for `convertMatchableString` (defined
in `comboBoxHelper.ts`, outside the given sources):

```
const filteredItems = items.filter(({ label }) => {
  if (selectedLabels.includes(label)) return false
  if (!inputValue) return true
  return convertMatchableString(label).includes(convertMatchableString(inputValue))
})
``` -/
def filteredItems {α : Type} (conv : String → String) (items selectedItems : List (Item α))
    (inputValue : String) : List (Item α) :=
  items.filter fun i =>
    if i.label ∈ selectedLabels selectedItems then false
    else if inputValue = "" then true
    else strIncludes (conv i.label) (conv inputValue)

/-- `const isDuplicate = items.some((item) => item.label === inputValue)`
(MultiComboBox.tsx line 151). -/
def isDuplicate {α : Type} (items : List (Item α)) (inputValue : String) : Bool :=
  items.any fun i => i.label == inputValue

/-- `const hasSelectableExactMatch = filteredItems.some((item) => item.label === inputValue)`
(MultiComboBox.tsx line 152). -/
def hasSelectableExactMatch {α : Type} (conv : String → String)
    (items selectedItems : List (Item α)) (inputValue : String) : Bool :=
  (filteredItems conv items selectedItems inputValue).any fun i => i.label == inputValue

/-- The `isAddable` flag handed to `useListBox` (MultiComboBox.tsx line 169):
`creatable && !!inputValue && !isDuplicate`. -/
def isAddableFlag {α : Type} (creatable : Bool) (items : List (Item α))
    (inputValue : String) : Bool :=
  creatable && !(inputValue == "") && !(isDuplicate items inputValue)

/-- The `isDuplicate` flag handed to `useListBox` (MultiComboBox.tsx line 170):
`creatable && !!inputValue && isDuplicate && !hasSelectableExactMatch`. -/
def isDuplicateFlag {α : Type} (conv : String → String) (creatable : Bool)
    (items selectedItems : List (Item α)) (inputValue : String) : Bool :=
  creatable && !(inputValue == "") && isDuplicate items inputValue &&
    !(hasSelectableExactMatch conv items selectedItems inputValue)

/-- JS `array.concat(x)` where `x` is a single element (not an array): a new
array holding the elements of `array` followed by `x`. -/
def arrayConcatOne {α : Type} (l : List α) (x : α) : List α :=
  l ++ [x]

/-- The `onSelect` handler passed to `useListBox` (MultiComboBox.tsx lines
164-167): returns the pair (argument given to `onSelect`, argument given to
`onChangeSelected`):

```
onSelect: (selected) => {
  onSelect && onSelect(selected)
  onChangeSelected && onChangeSelected(selectedItems.concat(selected))
}
``` -/
def multiOnSelect {α : Type} (selectedItems : List (Item α)) (selected : Item α) :
    Item α × List (Item α) :=
  (selected, arrayConcatOne selectedItems selected)

/-- The `onDelete` handler of each rendered `MultiSelectedItem`
(MultiComboBox.tsx lines 259-269): returns the pair (argument given to
`onDelete`, argument given to `onChangeSelected`):

```
onDelete && onDelete(selectedItem)
onChangeSelected && onChangeSelected(
  selectedItems.filter(
    (selected) =>
      selected.label !== selectedItem.label ||
      selected.value !== selectedItem.value))
``` -/
def multiOnDelete {α : Type} [DecidableEq α] (selectedItems : List (Item α))
    (selectedItem : Item α) : Item α × List (Item α) :=
  (selectedItem,
    selectedItems.filter fun s =>
      !(s.label == selectedItem.label) || !(s.value == selectedItem.value))

/-- Component-local transient state of MultiComboBox: the `isFocused` and
`isComposing` `useState` flags, plus counters recording how often the
owner-supplied `onFocus` and `onBlur` callbacks have fired. -/
structure ComboBoxState where
  isFocused : Bool
  isComposing : Bool
  focusCount : Nat
  blurCount : Nat
deriving DecidableEq, Repr

/-- Initial state: both flags start as `useState(false)`, no callbacks fired. -/
def initialState : ComboBoxState :=
  ⟨false, false, 0, 0⟩

/-- `focus` (MultiComboBox.tsx lines 178-182): invokes `onFocus` and sets
`isFocused` to true (`resetActiveOptionIndex` lives in the opaque list box). -/
def focusFn (s : ComboBoxState) : ComboBoxState :=
  { s with isFocused := true, focusCount := s.focusCount + 1 }

/-- `blur` (MultiComboBox.tsx lines 183-187): a no-op when not focused;
otherwise invokes `onBlur` once and clears `isFocused`:

```
if (!isFocused) return
onBlur && onBlur()
setIsFocused(false)
``` -/
def blurFn (s : ComboBoxState) : ComboBoxState :=
  if s.isFocused then { s with isFocused := false, blurCount := s.blurCount + 1 }
  else s

/-- The DOM events handled by MultiComboBox. `containerClick` carries whether
the click target sits inside a delete button and whether the component is
disabled; key events carry the `key` string of the event. -/
inductive CBEvent where
  | containerClick (onDeleteButton : Bool) (isDisabled : Bool)
  | containerKeyDown (key : String)
  | inputFocus
  | compositionStart
  | compositionEnd
  | inputKeyDown (key : String)
  | outerClick
deriving DecidableEq, Repr

/-- One event dispatched to a MultiComboBox handler (MultiComboBox.tsx lines
195-200, 227-244 and 290-306). Returns the next state together with whether
the opaque list-box key handler `handleInputKeyDown` was invoked. -/
def stepWithListBox (s : ComboBoxState) : CBEvent → ComboBoxState × Bool
  | .containerClick onDeleteButton isDisabled =>
      if !onDeleteButton && !isDisabled && !s.isFocused then (focusFn s, false)
      else (s, false)
  | .containerKeyDown key =>
      if key = "Escape" || key = "Esc" then (blurFn s, false) else (s, false)
  | .inputFocus =>
      if !s.isFocused then (focusFn s, false) else (s, false)
  | .compositionStart => ({ s with isComposing := true }, false)
  | .compositionEnd => ({ s with isComposing := false }, false)
  | .inputKeyDown key =>
      if s.isComposing then (s, false)
      else if key = "Tab" then (blurFn s, false)
      else (s, true)
  | .outerClick => (blurFn s, false)

/-- Run a sequence of events from a state. -/
def runEvents (s : ComboBoxState) : List CBEvent → ComboBoxState
  | [] => s
  | e :: es => runEvents (stepWithListBox s e).1 es

/-- `inputValue` (MultiComboBox.tsx lines 138-143): the displayed value is the
controlled prop when supplied (`isInputControlled`), else the internal
`uncontrolledInputValue` state. The possibly-undefined prop is an `Option`. -/
def displayedInputValue (controlledInputValue : Option String)
    (uncontrolledInputValue : String) : String :=
  match controlledInputValue with
  | some v => v
  | none => uncontrolledInputValue

/-- The layout effect of MultiComboBox.tsx lines 202-210, run whenever
`isFocused`, `isInputControlled` or `selectedItems` changes: it resets the
internal input state to the empty string unless the input is controlled.
Returns the new internal state. -/
def layoutEffectInputReset (controlledInputValue : Option String)
    (uncontrolledInputValue : String) : String :=
  if controlledInputValue.isSome then uncontrolledInputValue else ""

/-- The internal-state update of the input `onChange` handler
(MultiComboBox.tsx lines 283-289): the internal state takes the new text only
when the input is uncontrolled. -/
def onChangeInputState (controlledInputValue : Option String)
    (uncontrolledInputValue newValue : String) : String :=
  if controlledInputValue.isSome then uncontrolledInputValue else newValue

/-- The accessibility surface rendered by FormGroup's wrapper and title label. -/
structure FormGroupRendered where
  ariaLabelledby : Option String
  labelId : String
deriving DecidableEq, Repr

/-- FormGroup.tsx lines 41-56: `isRoleGroup = props.role === 'group'`, the
wrapper gets `aria-labelledby={isRoleGroup ? managedLabelId : undefined}`, and
the label always carries `id={managedLabelId}`. `managedLabelId` abstracts the
opaque `useId(labelId)`. -/
def renderFormGroup (role : Option String) (managedLabelId : String) :
    FormGroupRendered :=
  { ariaLabelledby := if role = some "group" then some managedLabelId else none
    labelId := managedLabelId }

/-- The `errorMessages` prop of FormGroup: `string | string[]`. -/
inductive ErrorMessagesProp where
  | single (message : String)
  | multiple (messages : List String)
deriving DecidableEq, Repr

/-- The error-message texts rendered by FormGroup.tsx lines 68-79:

```
errorMessages &&
  (typeof errorMessages === 'string' ? [errorMessages] : errorMessages).map(...)
```

JS truthiness: an absent prop and the empty string are falsy, so they render
nothing; every array (even an empty one) is truthy and is mapped over. -/
def renderedErrorMessages : Option ErrorMessagesProp → List String
  | none => []
  | some (.single message) => if message = "" then [] else [message]
  | some (.multiple messages) => messages

end SmartHRUI

namespace SmartHRUI

/-- C1: For every items list, selection list, and input text, the filtered
candidate list produced by MultiComboBox contains no item whose label equals
the label of any item in the selection. -/
theorem filteredItems_excludes_selected {α : Type} (conv : String → String)
    (items selectedItems : List (Item α)) (inputValue : String) (x : Item α)
    (hx : x ∈ filteredItems conv items selectedItems inputValue) :
    x.label ∉ selectedLabels selectedItems := by
  rcases List.mem_filter.mp hx with ⟨-, hp⟩
  intro hmem
  simp [hmem] at hp

/-- Witness for C1 at a concrete input: with items `[A, B]`, selection `[B]`
and empty input, `A` is a filtered candidate and its label is not selected. -/
theorem filteredItems_excludes_selected_witness :
    (⟨"A", 1⟩ : Item Nat) ∈
        filteredItems id [⟨"A", 1⟩, ⟨"B", 2⟩] [⟨"B", 2⟩] "" ∧
      ("A" : String) ∉ selectedLabels ([⟨"B", 2⟩] : List (Item Nat)) :=
  ⟨by decide,
    filteredItems_excludes_selected id [⟨"A", 1⟩, ⟨"B", 2⟩] [⟨"B", 2⟩] "" ⟨"A", 1⟩
      (by decide)⟩

/-- C2: membership in the candidate list is characterised by the selection
labels and, for non-empty input, normalised substring containment. For every
item `x` of `items`: when the input text is non-empty, `x` is a candidate iff
its label is not among the selected labels and its normalised label contains
the normalised input as a substring; when the input is empty, `x` is a
candidate iff its label is not among the selected labels. -/
theorem filteredItems_mem_iff {α : Type} (conv : String → String)
    (items selectedItems : List (Item α)) (inputValue : String) (x : Item α)
    (hx : x ∈ items) :
    (inputValue ≠ "" →
      (x ∈ filteredItems conv items selectedItems inputValue ↔
        x.label ∉ selectedLabels selectedItems ∧
          strIncludes (conv x.label) (conv inputValue) = true)) ∧
    (inputValue = "" →
      (x ∈ filteredItems conv items selectedItems inputValue ↔
        x.label ∉ selectedLabels selectedItems)) := by
  constructor
  · intro hne
    rw [filteredItems, List.mem_filter]
    by_cases hsel : x.label ∈ selectedLabels selectedItems
    · simp [hsel]
    · simp [hsel, hne, hx]
  · intro he
    rw [filteredItems, List.mem_filter]
    by_cases hsel : x.label ∈ selectedLabels selectedItems
    · simp [hsel]
    · simp [hsel, he, hx]

/-- Witness for C2: with items `[apple, banana]`, selection `[banana]` and
input `"app"`, the characterisation puts `apple` in the candidate list. -/
theorem filteredItems_mem_iff_witness :
    (⟨"apple", 1⟩ : Item Nat) ∈
      filteredItems id [⟨"apple", 1⟩, ⟨"banana", 2⟩] [⟨"banana", 2⟩] "app" :=
  ((filteredItems_mem_iff id [⟨"apple", 1⟩, ⟨"banana", 2⟩] [⟨"banana", 2⟩] "app"
        ⟨"apple", 1⟩ (by decide)).1 (by decide)).mpr (by decide)

/-- C7: the `isAddable` flag handed to the list box holds iff `creatable` is
set, the input text is non-empty, and no item's label equals the input text;
the `isDuplicate` flag holds only when some item's label equals the input
text. -/
theorem listBoxFlags_characterised {α : Type} (conv : String → String)
    (creatable : Bool) (items selectedItems : List (Item α)) (inputValue : String) :
    (isAddableFlag creatable items inputValue = true ↔
      creatable = true ∧ inputValue ≠ "" ∧ ∀ i ∈ items, i.label ≠ inputValue) ∧
    (isDuplicateFlag conv creatable items selectedItems inputValue = true →
      ∃ i ∈ items, i.label = inputValue) := by
  constructor
  · rw [isAddableFlag, isDuplicate]
    simp only [Bool.and_eq_true, Bool.not_eq_true', beq_eq_false_iff_ne, ne_eq,
      List.any_eq_false, and_assoc]
    constructor
    · rintro ⟨hc, hne, hall⟩
      exact ⟨hc, fun he => hne (by simp [he]), fun i hi => by simpa using hall i hi⟩
    · rintro ⟨hc, hne, hall⟩
      exact ⟨hc, by simpa using hne, fun i hi => by simpa using hall i hi⟩
  · intro hdup
    rw [isDuplicateFlag] at hdup
    simp only [Bool.and_eq_true] at hdup
    rcases hdup with ⟨⟨-, hsome⟩, -⟩
    rw [isDuplicate, List.any_eq_true] at hsome
    rcases hsome with ⟨i, hi, hbeq⟩
    exact ⟨i, hi, by simpa using hbeq⟩

/-- Witness for C7: with one item `apple`, input `"new"` is addable; with the
label `apple` already selected under a different value, input `"apple"` sets
the duplicate flag and indeed some item's label equals the input. -/
theorem listBoxFlags_characterised_witness :
    isAddableFlag true [(⟨"apple", 1⟩ : Item Nat)] "new" = true ∧
      ∃ i ∈ [(⟨"apple", 1⟩ : Item Nat)], i.label = "apple" :=
  ⟨(listBoxFlags_characterised id true [(⟨"apple", 1⟩ : Item Nat)] [] "new").1.mpr
      ⟨rfl, by decide, by decide⟩,
    (listBoxFlags_characterised id true [(⟨"apple", 1⟩ : Item Nat)] [⟨"apple", 2⟩]
        "apple").2 (by decide)⟩

/-- C3: selecting a candidate hands the item itself to the single-item
`onSelect` callback and hands `onChangeSelected` the previous selection with
exactly that item appended at the end: the first `selectedItems.length`
entries of the new list are the previous list unchanged and what follows is
just the selected item. -/
theorem multiOnSelect_appends {α : Type} (selectedItems : List (Item α))
    (selected : Item α) :
    (multiOnSelect selectedItems selected).1 = selected ∧
      (multiOnSelect selectedItems selected).2.take selectedItems.length =
        selectedItems ∧
      (multiOnSelect selectedItems selected).2.drop selectedItems.length =
        [selected] := by
  refine ⟨rfl, ?_, ?_⟩
  · simp [multiOnSelect, arrayConcatOne, List.take_left]
  · simp [multiOnSelect, arrayConcatOne, List.drop_left]

/-- Witness for C3 at concrete lists: selecting `B` with `[A]` already
selected yields the callback pair `(B, [A, B])`. -/
theorem multiOnSelect_appends_witness :
    (multiOnSelect [(⟨"A", 1⟩ : Item Nat)] ⟨"B", 2⟩).1 = ⟨"B", 2⟩ ∧
      (multiOnSelect [(⟨"A", 1⟩ : Item Nat)] ⟨"B", 2⟩).2.take 1 = [⟨"A", 1⟩] ∧
      (multiOnSelect [(⟨"A", 1⟩ : Item Nat)] ⟨"B", 2⟩).2.drop 1 = [⟨"B", 2⟩] :=
  multiOnSelect_appends [⟨"A", 1⟩] ⟨"B", 2⟩

/-- Helper: the number of copies of `x` surviving `List.filter p` is the
original number when `p x` holds and `0` otherwise. -/
theorem count_filter_eq {α : Type} [DecidableEq α] (p : α → Bool) (l : List α)
    (x : α) :
    (l.filter p).count x = if p x = true then l.count x else 0 := by
  by_cases hp : p x = true
  · rw [if_pos hp]
    exact List.count_filter hp
  · rw [if_neg hp]
    refine List.count_eq_zero.mpr fun hmem => ?_
    exact hp (List.mem_filter.mp hmem).2

/-- C4 counterexample: the claim says deletion removes exactly the one
matching `(label, value)` pair and retains every other element; but when the
selection holds two copies of the same pair, the filter removes both, so the
result is empty instead of keeping the second copy. -/
theorem multiOnDelete_counterexample :
    (multiOnDelete [(⟨"A", 0⟩ : Item Nat), ⟨"A", 0⟩] ⟨"A", 0⟩).2 = [] ∧
      (multiOnDelete [(⟨"A", 0⟩ : Item Nat), ⟨"A", 0⟩] ⟨"A", 0⟩).2 ≠
        [⟨"A", 0⟩] := by
  constructor
  · rfl
  · decide

/-- C4 amended: deletion hands the deleted item to `onDelete` and hands
`onChangeSelected` a subsequence of the previous selection (order preserved)
in which every element whose label and value both equal the deleted item's
has been removed, while every other element keeps its multiplicity; in
particular, when the matching pair occurs exactly once, exactly that element
is removed. -/
theorem multiOnDelete_removes_matching {α : Type} [DecidableEq α]
    (selectedItems : List (Item α)) (selectedItem : Item α) :
    (multiOnDelete selectedItems selectedItem).1 = selectedItem ∧
      List.Sublist (multiOnDelete selectedItems selectedItem).2 selectedItems ∧
      ∀ x : Item α,
        (multiOnDelete selectedItems selectedItem).2.count x =
          if x.label = selectedItem.label ∧ x.value = selectedItem.value then 0
          else selectedItems.count x := by
  refine ⟨rfl, List.filter_sublist selectedItems, fun x => ?_⟩
  rw [multiOnDelete]
  by_cases hmatch : x.label = selectedItem.label ∧ x.value = selectedItem.value
  · rw [if_pos hmatch, count_filter_eq, if_neg]
    simp [hmatch.1, hmatch.2]
  · rw [if_neg hmatch, count_filter_eq, if_pos]
    rcases not_and_or.mp hmatch with hl | hv
    · simp [hl]
    · simp [hv]

/-- Witness for C4's amended theorem at concrete lists: deleting `A` from
`[A, B]` hands `onDelete` the item `A` and keeps the multiplicities of the
amended characterisation. -/
theorem multiOnDelete_removes_matching_witness :
    (multiOnDelete [(⟨"A", 1⟩ : Item Nat), ⟨"B", 2⟩] ⟨"A", 1⟩).1 = ⟨"A", 1⟩ ∧
      List.Sublist (multiOnDelete [(⟨"A", 1⟩ : Item Nat), ⟨"B", 2⟩] ⟨"A", 1⟩).2
        [⟨"A", 1⟩, ⟨"B", 2⟩] ∧
      ∀ x : Item Nat,
        (multiOnDelete [(⟨"A", 1⟩ : Item Nat), ⟨"B", 2⟩] ⟨"A", 1⟩).2.count x =
          if x.label = "A" ∧ x.value = 1 then 0
          else ([(⟨"A", 1⟩ : Item Nat), ⟨"B", 2⟩]).count x :=
  multiOnDelete_removes_matching [⟨"A", 1⟩, ⟨"B", 2⟩] ⟨"A", 1⟩

/-- C5 counterexample: the claim says a Tab keydown while focused always
transitions to blurred; but in the reachable state where an IME composition
is in progress, the input keydown handler returns early and a Tab keydown
leaves the component focused. -/
theorem tab_while_composing_stays_focused :
    (runEvents initialState [.inputFocus, .compositionStart]).isFocused = true ∧
      (runEvents initialState [.inputFocus, .compositionStart]).isComposing =
        true ∧
      (stepWithListBox (runEvents initialState [.inputFocus, .compositionStart])
            (.inputKeyDown "Tab")).1.isFocused = true := by
  refine ⟨rfl, rfl, rfl⟩

/-- C5 amended: while focused, an Escape keydown on the container transitions
to blurred exactly once (one `onBlur` call); a Tab keydown on the input does
the same provided no IME composition is in progress; and invoking `blur`
while already blurred changes no state and invokes no callback, so `onBlur`
fires at most once per focus session. -/
theorem escape_tab_blur_exactly_once (s : ComboBoxState) :
    (s.isFocused = true →
      (stepWithListBox s (.containerKeyDown "Escape")).1.isFocused = false ∧
        (stepWithListBox s (.containerKeyDown "Escape")).1.blurCount =
          s.blurCount + 1) ∧
    (s.isFocused = true → s.isComposing = false →
      (stepWithListBox s (.inputKeyDown "Tab")).1.isFocused = false ∧
        (stepWithListBox s (.inputKeyDown "Tab")).1.blurCount =
          s.blurCount + 1) ∧
    (s.isFocused = false → blurFn s = s) := by
  refine ⟨fun hf => ?_, fun hf hc => ?_, fun hb => ?_⟩
  · simp [stepWithListBox, blurFn, hf]
  · simp [stepWithListBox, blurFn, hf, hc]
  · simp [blurFn, hb]

/-- Witness for C5's amended theorem at concrete states: Escape and Tab each
blur a focused, non-composing state, and `blur` is the identity on a blurred
state. -/
theorem escape_tab_blur_exactly_once_witness :
    (stepWithListBox ⟨true, false, 1, 0⟩
          (.containerKeyDown "Escape")).1.isFocused = false ∧
      (stepWithListBox ⟨true, false, 1, 0⟩
          (.inputKeyDown "Tab")).1.isFocused = false ∧
      blurFn ⟨false, false, 1, 1⟩ = ⟨false, false, 1, 1⟩ :=
  ⟨((escape_tab_blur_exactly_once ⟨true, false, 1, 0⟩).1 rfl).1,
    ((escape_tab_blur_exactly_once ⟨true, false, 1, 0⟩).2.1 rfl rfl).1,
    (escape_tab_blur_exactly_once ⟨false, false, 1, 1⟩).2.2 rfl⟩

/-- C8: while an IME composition is in progress, every keydown dispatched to
the input handler is ignored: the state is unchanged, the list-box key
handler is not invoked, and in particular a Tab keydown leaves the component
focused. -/
theorem composing_keydown_ignored (s : ComboBoxState) (key : String)
    (h : s.isComposing = true) :
    stepWithListBox s (.inputKeyDown key) = (s, false) ∧
      (stepWithListBox s (.inputKeyDown "Tab")).1.isFocused = s.isFocused := by
  constructor
  · simp [stepWithListBox, h]
  · simp [stepWithListBox, h]

/-- Witness for C8 at a concrete composing state and an arrow keydown. -/
theorem composing_keydown_ignored_witness :
    stepWithListBox ⟨true, true, 1, 0⟩ (.inputKeyDown "ArrowDown") =
      (⟨true, true, 1, 0⟩, false) :=
  (composing_keydown_ignored ⟨true, true, 1, 0⟩ "ArrowDown" rfl).1

/-- C6: when the input is uncontrolled, the layout effect triggered by a
selection change resets the internal text so the displayed value is empty;
when the input is controlled, the displayed value always equals the
caller-supplied prop, and neither the reset effect nor the change handler
modifies the internal state. -/
theorem inputValue_reset_and_controlled :
    (∀ u : String, displayedInputValue none (layoutEffectInputReset none u) = "") ∧
      (∀ v u : String, displayedInputValue (some v) u = v) ∧
      (∀ v u : String, layoutEffectInputReset (some v) u = u) ∧
      (∀ v u n : String, onChangeInputState (some v) u n = u) := by
  refine ⟨fun u => rfl, fun v u => rfl, fun v u => rfl, fun v u n => rfl⟩

/-- C9: FormGroup's wrapper carries `aria-labelledby` equal to the managed
label id exactly when the caller passed `role="group"`; for any other role
(or none) the attribute is absent, while the title label always carries the
managed id. -/
theorem formGroup_ariaLabelledby (role : Option String) (managedLabelId : String) :
    ((renderFormGroup role managedLabelId).ariaLabelledby = some managedLabelId ↔
        role = some "group") ∧
      ((renderFormGroup role managedLabelId).ariaLabelledby = none ↔
        role ≠ some "group") ∧
      (renderFormGroup role managedLabelId).labelId = managedLabelId := by
  by_cases h : role = some "group" <;> simp [renderFormGroup, h]

/-- Witness for C9 at concrete props: with `role="group"` the wrapper carries
the managed label id; with no role the attribute is absent. -/
theorem formGroup_ariaLabelledby_witness :
    (renderFormGroup (some "group") "label-id").ariaLabelledby =
        some "label-id" ∧
      (renderFormGroup none "label-id").ariaLabelledby = none :=
  ⟨(formGroup_ariaLabelledby (some "group") "label-id").1.mpr rfl,
    (formGroup_ariaLabelledby none "label-id").2.1.mpr (by decide)⟩

/-- C10 counterexample: the claim says a single string always renders like
its singleton array; but the empty string is falsy in JS, so
`errorMessages=""` renders no error message while `errorMessages=[""]`
renders one (empty) error message. -/
theorem errorMessages_empty_string_differs :
    renderedErrorMessages (some (.single "")) = [] ∧
      renderedErrorMessages (some (.multiple [""])) = [""] ∧
      renderedErrorMessages (some (.single "")) ≠
        renderedErrorMessages (some (.multiple [""])) := by
  refine ⟨rfl, rfl, ?_⟩
  decide

/-- C10 amended: for every non-empty string, FormGroup renders the single
string exactly as it renders the one-element array holding it. -/
theorem errorMessages_string_normalises (message : String) (h : message ≠ "") :
    renderedErrorMessages (some (.single message)) =
      renderedErrorMessages (some (.multiple [message])) := by
  simp [renderedErrorMessages, h]

/-- Witness for C10's amended theorem at a concrete non-empty message. -/
theorem errorMessages_string_normalises_witness :
    renderedErrorMessages (some (.single "required")) =
      renderedErrorMessages (some (.multiple ["required"])) :=
  errorMessages_string_normalises "required" (by decide)

end SmartHRUI
